import Mathlib

/-!
# udp_proxy: the capture / forward pipeline of `main.go`

A shallow embedding of the two capture loops of `src/main.go`
(`captureAndForward`, lines 141-188, and `captureResponses`, lines 190-235),
of the shared connection table `connMap` and of the one-shot UDP sends they
perform.

* A captured packet is the list of its decoded layers; `packet.Layer(t)` is the
  first layer of type `t`.
* `connMap` (a Go `map[string]*net.UDPAddr`) is a function from keys to
  optional values; an assignment `connMap[k] = v` is `ConnMap.set`.
* The operating system is an oracle `Env` that answers every dial and every
  write; the sockets it hands out are numbered by the dial attempt that
  opened them.  Every I/O call is appended to the `trace` of the state.
* `go func(...) {...}(destAddr, payload)` puts a `Task` in the list of
  goroutines that were spawned and have not run yet; the scheduler step
  `Step.runGoroutine` runs one of them.  The loop body of a listener is one
  atomic step: it touches `connMap` once, inside the mutex.
-/

namespace UdpProxy

/-! ## Data -/

/-- One byte. -/
abbrev Byte := Fin 256

/-- The type `layers.UDPPort`, a `uint16`. -/
abbrev UDPPort := Fin 65536

/-- The type `net.IP` as `layers.IPv4` yields it: the four bytes `data[12:16]`
or `data[16:20]` of the IPv4 header. -/
structure NetIP where
  b0 : Byte
  b1 : Byte
  b2 : Byte
  b3 : Byte
deriving DecidableEq, Repr

/-- The type `net.UDPAddr{IP, Port}`; `Port` is a Go `int`, here always the value
of a `uint16`. -/
structure UDPAddr where
  IP : NetIP
  Port : Nat
deriving DecidableEq, Repr

/-- The fields of `layers.IPv4` the program reads. -/
structure IPv4 where
  SrcIP : NetIP
  DstIP : NetIP
deriving DecidableEq, Repr

/-- The fields of `layers.UDP` the program reads. -/
structure UDP where
  SrcPort : UDPPort
  DstPort : UDPPort
  Payload : List Byte
deriving DecidableEq, Repr

/-- A decoded layer of a captured packet. -/
inductive Layer where
  | ethernet
  | arp
  | ipv4 (ip : IPv4)
  | ipv6
  | tcp
  | udp (u : UDP)
  | payload (data : List Byte)
deriving DecidableEq, Repr

/-- A captured packet: its layers, outermost first. -/
abbrev Packet := List Layer

/-- The call `packet.Layer(layers.LayerTypeUDP)` of lines 154 and 203: gopacket
returns the first layer of the requested type, `none` for nil. -/
def Packet.udpLayer (packet : Packet) : Option UDP :=
  packet.findSome? fun l => match l with
    | .udp u => some u
    | _ => none

/-- The call `packet.Layer(layers.LayerTypeIPv4)` of lines 155 and 204: the first
IPv4 layer, `none` for nil. -/
def Packet.ipLayer (packet : Packet) : Option IPv4 :=
  packet.findSome? fun l => match l with
    | .ipv4 ip => some ip
    | _ => none

/-! ## Key formatting -/

/-- The verb `%d` of `fmt` on a `layers.UDPPort` (a `uint16`; `%d` does not call
its `String` method), and the rendering of one byte by `net.IP.String()`:
decimal digits, no leading zero. -/
def fmtD (n : Nat) : String := Nat.repr n

/-- The method `net.IP.String()` on a four-byte address: dotted quad. -/
def ipString (ip : NetIP) : String :=
  fmtD ip.b0.val ++ "." ++ fmtD ip.b1.val ++ "." ++ fmtD ip.b2.val ++ "." ++ fmtD ip.b3.val

/-- The call `fmt.Sprintf("%s:%d", ip, port)` of lines 167 and 213. -/
def sprintfAddr (ip : NetIP) (port : UDPPort) : String :=
  ipString ip ++ ":" ++ fmtD port.val

/-! ## Connection table -/

/-- The global `connMap`. -/
abbrev ConnMap := String → Option UDPAddr

/-- The value `make(map[string]*net.UDPAddr)`. -/
def ConnMap.empty : ConnMap := fun _ => none

/-- The assignment `connMap[k] = v`. -/
def ConnMap.set (m : ConnMap) (k : String) (v : UDPAddr) : ConnMap :=
  fun k' => if k' = k then some v else m k'

/-! ## I/O -/

/-- What a dial is given: the string of `net.Dial("udp", dest)` or the address of
`net.DialUDP("udp", nil, addr)`. -/
inductive Dest where
  | hostport (s : String)
  | addr (a : UDPAddr)
deriving DecidableEq, Repr

/-- An I/O call of the pipeline, with its result. A socket is named by a number. -/
inductive Event where
  | debugPrint
  | dial (dest : Dest) (conn : Option Nat)
  | write (conn : Nat) (data : List Byte) (ok : Bool)
  | close (conn : Nat)
  | warn (dest : Dest)
deriving DecidableEq, Repr

/-- The operating system: whether the `n`-th dial succeeds, and whether the write
on the socket opened by the `n`-th dial succeeds. -/
structure Env where
  dialOk : Nat → Bool
  writeOk : Nat → Bool

/-- The arguments `(dest, data)` of the goroutine of lines 174-186. -/
structure Task where
  dest : String
  data : List Byte
deriving DecidableEq, Repr

/-- The state of the process. -/
structure State where
  connMap : ConnMap
  goroutines : List Task
  trace : List Event
  dials : Nat

/-- The state at start-up. -/
def State.init : State := ⟨ConnMap.empty, [], [], 0⟩

/-- The calls `net.Dial` / `net.DialUDP`: one dial attempt. -/
def netDial (env : Env) (dest : Dest) (st : State) : Option Nat × State :=
  let conn := if env.dialOk st.dials then some st.dials else none
  (conn, { st with trace := st.trace ++ [Event.dial dest conn], dials := st.dials + 1 })

/-- The call `conn.Write(data)`; the result is `err == nil`. -/
def connWrite (env : Env) (conn : Nat) (data : List Byte) (st : State) : Bool × State :=
  (env.writeOk conn, { st with trace := st.trace ++ [Event.write conn data (env.writeOk conn)] })

/-- The call `conn.Close()`. -/
def connClose (conn : Nat) (st : State) : State :=
  { st with trace := st.trace ++ [Event.close conn] }

/-- The call `warn(...)` of a failed dial or write. -/
def warn (dest : Dest) (st : State) : State :=
  { st with trace := st.trace ++ [Event.warn dest] }

/-- The statement `go f(args)`: the goroutine is scheduled, not run. -/
def spawn (t : Task) (st : State) : State :=
  { st with goroutines := st.goroutines ++ [t] }

/-! ## The forwarding goroutine and the two listeners -/

/-- The goroutine body of lines 174-186. -/
def forwardGoroutine (env : Env) (t : Task) (st : State) : State :=
  match netDial env (Dest.hostport t.dest) st with
  | (none, st1) => warn (Dest.hostport t.dest) st1
  | (some conn, st1) =>
    match connWrite env conn t.data st1 with
    | (true, st2) => connClose conn st2
    | (false, st2) => connClose conn (warn (Dest.hostport t.dest) st2)

/-- The loop body of `captureAndForward`, lines 154-186. -/
def captureAndForwardFrame (st : State) (packet : Packet) : State :=
  match packet.udpLayer, packet.ipLayer with
  | some udp, some ip =>
    let st1 : State := { st with trace := st.trace ++ [Event.debugPrint] }
    let payload := udp.Payload
    let destAddr := sprintfAddr ip.DstIP udp.DstPort
    let ps5Addr : UDPAddr := ⟨ip.SrcIP, udp.SrcPort.val⟩
    let st2 : State := { st1 with connMap := st1.connMap.set destAddr ps5Addr }
    spawn ⟨destAddr, payload⟩ st2
  | _, _ => st

/-- The loop body of `captureResponses`, lines 203-233. -/
def captureResponsesFrame (env : Env) (st : State) (packet : Packet) : State :=
  match packet.udpLayer, packet.ipLayer with
  | some udp, some ip =>
    let srcKey := sprintfAddr ip.SrcIP udp.SrcPort
    match st.connMap srcKey with
    | none => st
    | some ps5Addr =>
      match netDial env (Dest.addr ps5Addr) st with
      | (none, st1) => warn (Dest.addr ps5Addr) st1
      | (some conn, st1) =>
        match connWrite env conn udp.Payload st1 with
        | (true, st2) => connClose conn st2
        | (false, st2) => connClose conn (warn (Dest.addr ps5Addr) st2)
  | _, _ => st

/-- The loop `for packet := range packetSource.Packets()` of `captureAndForward`. -/
def captureAndForward (st : State) (packets : List Packet) : State :=
  packets.foldl captureAndForwardFrame st

/-- The loop `for packet := range packetSource.Packets()` of `captureResponses`. -/
def captureResponses (env : Env) (st : State) (packets : List Packet) : State :=
  packets.foldl (captureResponsesFrame env) st

/-- One scheduling step of the process: a listener takes its next frame, or a
spawned goroutine runs. -/
inductive Step where
  | clientFrame (packet : Packet)
  | serverFrame (packet : Packet)
  | runGoroutine (i : Nat)
deriving DecidableEq, Repr

/-- The effect of one scheduling step. -/
def step (env : Env) (st : State) : Step → State
  | .clientFrame packet => captureAndForwardFrame st packet
  | .serverFrame packet => captureResponsesFrame env st packet
  | .runGoroutine i =>
    match st.goroutines.get? i with
    | none => st
    | some t => forwardGoroutine env t { st with goroutines := st.goroutines.eraseIdx i }

/-- A schedule, run from a state. -/
def run (env : Env) (st : State) (steps : List Step) : State :=
  steps.foldl (step env) st

/-! ## Scenario data of the specification -/

/-- The address 10.0.0.5. -/
def ipClient : NetIP := ⟨10, 0, 0, 5⟩

/-- The address 93.184.1.1. -/
def ipServer : NetIP := ⟨93, 184, 1, 1⟩

/-- The address 8.8.8.8. -/
def ipDns : NetIP := ⟨8, 8, 8, 8⟩

/-- The IPv4 header of Scenario A. -/
def frameAIp : IPv4 := ⟨ipClient, ipServer⟩

/-- The UDP header and payload of Scenario A. -/
def frameAUdp : UDP := ⟨40000, 9000, [1, 2]⟩

/-- Scenario A: client-side frame 10.0.0.5:40000 → 93.184.1.1:9000, payload 01 02. -/
def frameA : Packet :=
  [Layer.ethernet, Layer.ipv4 frameAIp, Layer.udp frameAUdp, Layer.payload [1, 2]]

/-- A second client-side frame to the destination of Scenario A, from
10.0.0.5:40001. -/
def frameA2 : Packet :=
  [Layer.ethernet, Layer.ipv4 ⟨ipClient, ipServer⟩, Layer.udp ⟨40001, 9000, [3]⟩]

/-- The IPv4 header of Scenario B. -/
def frameBIp : IPv4 := ⟨ipServer, ipClient⟩

/-- The UDP header and payload of Scenario B. -/
def frameBUdp : UDP := ⟨9000, 40000, [0x99]⟩

/-- Scenario B: server-side frame 93.184.1.1:9000 → 10.0.0.5:40000, payload 99. -/
def frameB : Packet :=
  [Layer.ethernet, Layer.ipv4 frameBIp, Layer.udp frameBUdp, Layer.payload [0x99]]

/-- Scenario C: server-side frame from 8.8.8.8:53. -/
def frameC : Packet :=
  [Layer.ethernet, Layer.ipv4 ⟨ipDns, ipClient⟩, Layer.udp ⟨53, 40000, [7]⟩, Layer.payload [7]]

/-- Scenario D: an IPv4 + TCP frame. -/
def frameD : Packet :=
  [Layer.ethernet, Layer.ipv4 ⟨ipClient, ipServer⟩, Layer.tcp, Layer.payload [1]]

/-- An oracle under which every dial and every write succeeds. -/
def envOk : Env := ⟨fun _ => true, fun _ => true⟩

/-- An oracle under which every dial fails. -/
def envDialFails : Env := ⟨fun _ => false, fun _ => true⟩

/-- An oracle under which every dial succeeds and every write fails. -/
def envWriteFails : Env := ⟨fun _ => true, fun _ => false⟩

/-! ## Reading a trace -/

/-- The I/O calls of one send that is the `n`-th dial attempt: the dial; when it
succeeds a write of `data` on the new socket, a warning when the write fails,
and the close; when it fails, a warning and nothing else. -/
def sendTrace (env : Env) (dest : Dest) (data : List Byte) (n : Nat) : List Event :=
  if env.dialOk n then
    if env.writeOk n then
      [Event.dial dest (some n), Event.write n data true, Event.close n]
    else
      [Event.dial dest (some n), Event.write n data false, Event.warn dest, Event.close n]
  else
    [Event.dial dest none, Event.warn dest]

/-- Whether an event is a dial attempt. -/
def Event.isDial : Event → Bool
  | .dial _ _ => true
  | _ => false

/-- Whether an event is a write. -/
def Event.isWrite : Event → Bool
  | .write _ _ _ => true
  | _ => false

/-- Whether an event opens, writes on or closes the socket `n`. -/
def Event.onConn (n : Nat) : Event → Bool
  | .dial _ (some c) => c == n
  | .write c _ _ => c == n
  | .close c => c == n
  | _ => false

/-- The events of a trace on the socket `n`, in order. -/
def eventsOn (n : Nat) (evs : List Event) : List Event :=
  evs.filter (Event.onConn n)

/-- The value of a run of decimal digit characters. -/
def digitsVal (ds : List Char) : Nat :=
  ds.foldl (fun acc c => 10 * acc + (c.toNat - 48)) 0

/-- A character that is a decimal digit. -/
abbrev IsDigit (c : Char) : Prop := 48 ≤ c.toNat ∧ c.toNat ≤ 57

/-- Every socket of the trace is opened, written on once and closed, and no
socket numbered from `dials` on has been used. -/
def SocketsReleased (st : State) : Prop :=
  ∀ n, (eventsOn n st.trace = [] ∨ ∃ dest data ok,
      eventsOn n st.trace = [Event.dial dest (some n), Event.write n data ok, Event.close n]) ∧
    (st.dials ≤ n → eventsOn n st.trace = [])

/-! ## Decimal rendering is injective -/

theorem digitChar_isDigit {m : Nat} (hm : m < 10) :
    IsDigit (Nat.digitChar m) ∧ (Nat.digitChar m).toNat - 48 = m := by
  interval_cases m <;> exact ⟨by decide, by decide⟩

theorem digitsVal_append_singleton (ds : List Char) (c : Char) :
    digitsVal (ds ++ [c]) = 10 * digitsVal ds + (c.toNat - 48) := by
  simp [digitsVal, List.foldl_append]

/-- Base-ten `Nat.toDigitsCore` with more fuel than its argument `n` extends the
text it is given by a run of digit characters of value `n`. -/
theorem toDigitsCore_run : ∀ (f n : Nat) (tail : List Char), n < f →
    ∃ r : List Char, (∀ c ∈ r, IsDigit c) ∧ digitsVal r = n ∧
      Nat.toDigitsCore 10 f n tail = r ++ tail := by
  intro f
  induction f with
  | zero => intro n tail hlt; exact absurd hlt (Nat.not_lt_zero n)
  | succ f ih =>
    intro n tail hlt
    have hd := digitChar_isDigit (Nat.mod_lt n (by decide : 10 > 0))
    rcases Nat.eq_zero_or_pos (n / 10) with hq | hq
    · refine ⟨[Nat.digitChar (n % 10)], ?_, ?_, ?_⟩
      · intro c hc
        rw [List.mem_singleton.mp hc]
        exact hd.1
      · have hv := digitsVal_append_singleton [] (Nat.digitChar (n % 10))
        rw [List.nil_append] at hv
        rw [hv, hd.2]
        simp only [digitsVal, List.foldl_nil]
        omega
      · rw [Nat.toDigitsCore, if_pos hq]
        rfl
    · obtain ⟨r, hdig, hval, hr⟩ := ih (n / 10) (Nat.digitChar (n % 10) :: tail) (by omega)
      refine ⟨r ++ [Nat.digitChar (n % 10)], ?_, ?_, ?_⟩
      · intro c hc
        rcases List.mem_append.mp hc with hc | hc
        · exact hdig c hc
        · rw [List.mem_singleton.mp hc]
          exact hd.1
      · rw [digitsVal_append_singleton, hval, hd.2]
        omega
      · rw [Nat.toDigitsCore, if_neg (by omega), hr]
        simp

/-- The characters of `fmtD n` are digits and their value is `n`. -/
theorem fmtD_run (n : Nat) : (∀ c ∈ (fmtD n).data, IsDigit c) ∧ digitsVal (fmtD n).data = n := by
  obtain ⟨r, hdig, hval, hr⟩ := toDigitsCore_run (n + 1) n [] (Nat.lt_succ_self n)
  have : (fmtD n).data = r := by
    simp [fmtD, Nat.repr, Nat.toDigits, hr, List.asString]
  rw [this]
  exact ⟨hdig, hval⟩

theorem fmtD_data_inj {a b : Nat} (h : (fmtD a).data = (fmtD b).data) : a = b := by
  have ha := (fmtD_run a).2
  have hb := (fmtD_run b).2
  rw [h] at ha
  omega

/-- A separator that is no digit splits a text in one way only. -/
theorem split_unique (c : Char) : ∀ (xs xs' ys ys' : List Char), c ∉ xs → c ∉ xs' →
    xs ++ c :: ys = xs' ++ c :: ys' → xs = xs' ∧ ys = ys' := by
  intro xs
  induction xs with
  | nil =>
    intro xs' ys ys' _ h' h
    cases xs' with
    | nil => simpa using h
    | cons x xs' =>
      simp only [List.nil_append, List.cons_append, List.cons.injEq] at h
      exact absurd (List.mem_cons.mpr (Or.inl h.1)) h'
  | cons x xs ih =>
    intro xs' ys ys' hx h' h
    cases xs' with
    | nil =>
      simp only [List.nil_append, List.cons_append, List.cons.injEq] at h
      exact absurd (List.mem_cons.mpr (Or.inl h.1.symm)) hx
    | cons x' xs' =>
      simp only [List.cons_append, List.cons.injEq] at h
      obtain ⟨h1, h2⟩ := ih xs' ys ys' (fun hm => hx (List.mem_cons_of_mem _ hm))
        (fun hm => h' (List.mem_cons_of_mem _ hm)) h.2
      exact ⟨by rw [h.1, h1], h2⟩

theorem dot_not_mem_fmtD (n : Nat) : '.' ∉ (fmtD n).data := by
  intro h
  have := (fmtD_run n).1 _ h
  revert this; decide

theorem colon_not_mem_fmtD (n : Nat) : ':' ∉ (fmtD n).data := by
  intro h
  have := (fmtD_run n).1 _ h
  revert this; decide

theorem sprintfAddr_data (ip : NetIP) (port : UDPPort) :
    (sprintfAddr ip port).data = (fmtD ip.b0.val).data ++ '.' :: ((fmtD ip.b1.val).data ++ '.' ::
      ((fmtD ip.b2.val).data ++ '.' :: ((fmtD ip.b3.val).data ++ ':' :: (fmtD port.val).data))) := by
  simp [sprintfAddr, ipString, String.data_append]

/-- The key of an endpoint determines the endpoint. -/
theorem sprintfAddr_inj {a b : NetIP} {p q : UDPPort}
    (h : sprintfAddr a p = sprintfAddr b q) : a = b ∧ p = q := by
  have hd := congrArg String.data h
  rw [sprintfAddr_data, sprintfAddr_data] at hd
  obtain ⟨h0, hd⟩ := split_unique '.' _ _ _ _ (dot_not_mem_fmtD _) (dot_not_mem_fmtD _) hd
  obtain ⟨h1, hd⟩ := split_unique '.' _ _ _ _ (dot_not_mem_fmtD _) (dot_not_mem_fmtD _) hd
  obtain ⟨h2, hd⟩ := split_unique '.' _ _ _ _ (dot_not_mem_fmtD _) (dot_not_mem_fmtD _) hd
  obtain ⟨h3, hp⟩ := split_unique ':' _ _ _ _ (colon_not_mem_fmtD _) (colon_not_mem_fmtD _) hd
  have e0 := Fin.ext (fmtD_data_inj h0)
  have e1 := Fin.ext (fmtD_data_inj h1)
  have e2 := Fin.ext (fmtD_data_inj h2)
  have e3 := Fin.ext (fmtD_data_inj h3)
  have ep := Fin.ext (fmtD_data_inj hp)
  refine ⟨?_, ep⟩
  cases a; cases b
  simp only [NetIP.mk.injEq]
  exact ⟨e0, e1, e2, e3⟩

/-! ## The loop bodies, case by case -/

theorem captureAndForwardFrame_accept (st : State) {packet : Packet} {udp : UDP} {ip : IPv4}
    (hu : packet.udpLayer = some udp) (hi : packet.ipLayer = some ip) :
    captureAndForwardFrame st packet =
      ⟨st.connMap.set (sprintfAddr ip.DstIP udp.DstPort) ⟨ip.SrcIP, udp.SrcPort.val⟩,
        st.goroutines ++ [⟨sprintfAddr ip.DstIP udp.DstPort, udp.Payload⟩],
        st.trace ++ [Event.debugPrint], st.dials⟩ := by
  simp [captureAndForwardFrame, hu, hi, spawn]

theorem captureAndForwardFrame_skip (st : State) {packet : Packet}
    (h : packet.udpLayer = none ∨ packet.ipLayer = none) :
    captureAndForwardFrame st packet = st := by
  unfold captureAndForwardFrame
  split
  · rename_i udp ip hu hi
    rcases h with h | h
    · rw [h] at hu; cases hu
    · rw [h] at hi; cases hi
  · rfl

theorem captureResponsesFrame_skip (env : Env) (st : State) {packet : Packet}
    (h : packet.udpLayer = none ∨ packet.ipLayer = none) :
    captureResponsesFrame env st packet = st := by
  unfold captureResponsesFrame
  split
  · rename_i udp ip hu hi
    rcases h with h | h
    · rw [h] at hu; cases hu
    · rw [h] at hi; cases hi
  · rfl

theorem captureResponsesFrame_miss (env : Env) (st : State) {packet : Packet} {udp : UDP} {ip : IPv4}
    (hu : packet.udpLayer = some udp) (hi : packet.ipLayer = some ip)
    (hm : st.connMap (sprintfAddr ip.SrcIP udp.SrcPort) = none) :
    captureResponsesFrame env st packet = st := by
  simp [captureResponsesFrame, hu, hi, hm]

theorem captureResponsesFrame_hit (env : Env) (st : State) {packet : Packet} {udp : UDP} {ip : IPv4}
    {a : UDPAddr} (hu : packet.udpLayer = some udp) (hi : packet.ipLayer = some ip)
    (hm : st.connMap (sprintfAddr ip.SrcIP udp.SrcPort) = some a) :
    captureResponsesFrame env st packet =
      ⟨st.connMap, st.goroutines,
        st.trace ++ sendTrace env (Dest.addr a) udp.Payload st.dials, st.dials + 1⟩ := by
  simp only [captureResponsesFrame, hu, hi, hm, netDial, connWrite, connClose, warn, sendTrace]
  cases hd : env.dialOk st.dials <;> cases hw : env.writeOk st.dials <;> simp [hd, hw]

theorem forwardGoroutine_eq (env : Env) (t : Task) (st : State) :
    forwardGoroutine env t st =
      ⟨st.connMap, st.goroutines,
        st.trace ++ sendTrace env (Dest.hostport t.dest) t.data st.dials, st.dials + 1⟩ := by
  simp only [forwardGoroutine, netDial, connWrite, connClose, warn, sendTrace]
  cases hd : env.dialOk st.dials <;> cases hw : env.writeOk st.dials <;> simp [hd, hw]

theorem captureResponsesFrame_connMap (env : Env) (st : State) (packet : Packet) :
    (captureResponsesFrame env st packet).connMap = st.connMap := by
  cases hu : packet.udpLayer with
  | none => rw [captureResponsesFrame_skip env st (Or.inl hu)]
  | some udp =>
    cases hi : packet.ipLayer with
    | none => rw [captureResponsesFrame_skip env st (Or.inr hi)]
    | some ip =>
      cases hm : st.connMap (sprintfAddr ip.SrcIP udp.SrcPort) with
      | none => rw [captureResponsesFrame_miss env st hu hi hm]
      | some a => rw [captureResponsesFrame_hit env st hu hi hm]

theorem step_runGoroutine_connMap (env : Env) (st : State) (i : Nat) :
    (step env st (Step.runGoroutine i)).connMap = st.connMap := by
  simp only [step]
  cases st.goroutines.get? i with
  | none => rfl
  | some t => simp [forwardGoroutine_eq]

/-- A key that no step of a schedule writes keeps its entry. -/
theorem run_connMap_untouched (env : Env) (k : String) : ∀ (steps : List Step) (st : State),
    (∀ pk udp ip, Step.clientFrame pk ∈ steps → pk.udpLayer = some udp → pk.ipLayer = some ip →
      sprintfAddr ip.DstIP udp.DstPort ≠ k) →
    (run env st steps).connMap k = st.connMap k := by
  intro steps
  induction steps with
  | nil => intro st _; rfl
  | cons s steps ih =>
    intro st h
    have hrest : ∀ pk udp ip, Step.clientFrame pk ∈ steps → pk.udpLayer = some udp →
        pk.ipLayer = some ip → sprintfAddr ip.DstIP udp.DstPort ≠ k :=
      fun pk udp ip hm => h pk udp ip (List.mem_cons_of_mem _ hm)
    show (run env (step env st s) steps).connMap k = st.connMap k
    rw [ih (step env st s) hrest]
    cases s with
    | serverFrame pk => simp only [step]; rw [captureResponsesFrame_connMap]
    | runGoroutine i => rw [step_runGoroutine_connMap]
    | clientFrame pk =>
      simp only [step]
      cases hu : pk.udpLayer with
      | none => rw [captureAndForwardFrame_skip st (Or.inl hu)]
      | some udp =>
        cases hi : pk.ipLayer with
        | none => rw [captureAndForwardFrame_skip st (Or.inr hi)]
        | some ip =>
          rw [captureAndForwardFrame_accept st hu hi]
          have hne := h pk udp ip (List.mem_cons_self _ _) hu hi
          simp only [ConnMap.set]
          rw [if_neg (fun e => hne e.symm)]

theorem run_append (env : Env) (st : State) (xs ys : List Step) :
    run env st (xs ++ ys) = run env (run env st xs) ys := by
  simp [run, List.foldl_append]

/-- A key present in the table stays present along every schedule. -/
theorem run_connMap_isSome (env : Env) (k : String) : ∀ (steps : List Step) (st : State),
    (st.connMap k).isSome = true → ((run env st steps).connMap k).isSome = true := by
  intro steps
  induction steps with
  | nil => intro st h; exact h
  | cons s steps ih =>
    intro st h
    show ((run env (step env st s) steps).connMap k).isSome = true
    apply ih
    cases s with
    | serverFrame pk => simp only [step]; rw [captureResponsesFrame_connMap]; exact h
    | runGoroutine i => rw [step_runGoroutine_connMap]; exact h
    | clientFrame pk =>
      simp only [step]
      cases hu : pk.udpLayer with
      | none => rw [captureAndForwardFrame_skip st (Or.inl hu)]; exact h
      | some udp =>
        cases hi : pk.ipLayer with
        | none => rw [captureAndForwardFrame_skip st (Or.inr hi)]; exact h
        | some ip =>
          rw [captureAndForwardFrame_accept st hu hi]
          simp only [ConnMap.set]
          split
          · rfl
          · exact h

/-- An entry of the table at the end of a schedule that starts with the empty
table was written by a client-side frame of the schedule. -/
theorem run_connMap_written (env : Env) (k : String) : ∀ (steps : List Step) (st : State),
    (run env st steps).connMap k ≠ st.connMap k →
    ∃ pk udp ip, Step.clientFrame pk ∈ steps ∧ pk.udpLayer = some udp ∧ pk.ipLayer = some ip ∧
      sprintfAddr ip.DstIP udp.DstPort = k := by
  intro steps st h
  by_contra hne
  apply h
  apply run_connMap_untouched
  intro pk udp ip hm hu hi hk
  exact hne ⟨pk, udp, ip, hm, hu, hi, hk⟩

theorem sendTrace_ne_nil (env : Env) (dest : Dest) (data : List Byte) (n : Nat) :
    sendTrace env dest data n ≠ [] := by
  unfold sendTrace
  split
  · split <;> simp
  · simp

/-! ## Sockets along a schedule -/

theorem eventsOn_sendTrace (env : Env) (dest : Dest) (data : List Byte) (n m : Nat) :
    eventsOn n (sendTrace env dest data m) =
      if n = m ∧ env.dialOk m = true then
        [Event.dial dest (some m), Event.write m data (env.writeOk m), Event.close m]
      else [] := by
  unfold sendTrace eventsOn
  by_cases hnm : m = n
  · subst hnm
    cases hd : env.dialOk m <;> cases hw : env.writeOk m <;>
      simp [List.filter, Event.onConn]
  · have hnm' : ¬ n = m := fun e => hnm e.symm
    have hb : (m == n) = false := by simpa using hnm
    cases hd : env.dialOk m <;> cases hw : env.writeOk m <;>
      simp [List.filter, Event.onConn, hb, hnm']

theorem eventsOn_append (n : Nat) (xs ys : List Event) :
    eventsOn n (xs ++ ys) = eventsOn n xs ++ eventsOn n ys := by
  simp [eventsOn, List.filter_append]

theorem socketsReleased_send (env : Env) (st : State) (dest : Dest) (data : List Byte)
    (g : List Task) (h : SocketsReleased st) :
    SocketsReleased ⟨st.connMap, g, st.trace ++ sendTrace env dest data st.dials, st.dials + 1⟩ := by
  intro n
  simp only [eventsOn_append, eventsOn_sendTrace]
  obtain ⟨h1, h2⟩ := h n
  by_cases hn : n = st.dials ∧ env.dialOk st.dials = true
  · rw [if_pos hn, h2 (by omega)]
    refine ⟨Or.inr ⟨dest, data, env.writeOk st.dials, ?_⟩, fun hle => by omega⟩
    rw [hn.1]; rfl
  · rw [if_neg hn, List.append_nil]
    exact ⟨h1, fun hle => h2 (by omega)⟩

theorem socketsReleased_step (env : Env) (st : State) (s : Step) (h : SocketsReleased st) :
    SocketsReleased (step env st s) := by
  cases s with
  | clientFrame pk =>
    simp only [step]
    cases hu : pk.udpLayer with
    | none => rw [captureAndForwardFrame_skip st (Or.inl hu)]; exact h
    | some udp =>
      cases hi : pk.ipLayer with
      | none => rw [captureAndForwardFrame_skip st (Or.inr hi)]; exact h
      | some ip =>
        rw [captureAndForwardFrame_accept st hu hi]
        intro n
        have hn := h n
        simpa [eventsOn_append, eventsOn, List.filter, Event.onConn] using hn
  | serverFrame pk =>
    simp only [step]
    cases hu : pk.udpLayer with
    | none => rw [captureResponsesFrame_skip env st (Or.inl hu)]; exact h
    | some udp =>
      cases hi : pk.ipLayer with
      | none => rw [captureResponsesFrame_skip env st (Or.inr hi)]; exact h
      | some ip =>
        cases hm : st.connMap (sprintfAddr ip.SrcIP udp.SrcPort) with
        | none => rw [captureResponsesFrame_miss env st hu hi hm]; exact h
        | some a =>
          rw [captureResponsesFrame_hit env st hu hi hm]
          exact socketsReleased_send env st _ _ _ h
  | runGoroutine i =>
    simp only [step]
    cases st.goroutines.get? i with
    | none => exact h
    | some t =>
      simp only [forwardGoroutine_eq]
      exact socketsReleased_send env st _ _ _ h

theorem socketsReleased_run (env : Env) : ∀ (steps : List Step) (st : State),
    SocketsReleased st → SocketsReleased (run env st steps) := by
  intro steps
  induction steps with
  | nil => intro st h; exact h
  | cons s steps ih => intro st h; exact ih _ (socketsReleased_step env st s h)

theorem socketsReleased_init : SocketsReleased State.init := by
  intro n
  exact ⟨Or.inl rfl, fun _ => rfl⟩

/-! ## The claims -/

/-- C1. Round-trip routing. From any state, once `captureAndForward` has processed
an IPv4+UDP frame with source S and destination D, and after any further steps
among which no client-side frame goes to D, a server-side IPv4+UDP frame whose
source is D finds the entry S under its key, and `captureResponses` issues one
send on it: a dial to exactly S (same IP, same port) and, on the socket that
dial opens, a write of exactly the frame's UDP payload. -/
theorem roundtrip_routing (env : Env) (st : State) (mid : List Step)
    (cp sp : Packet) (cudp sudp : UDP) (cip sip : IPv4)
    (hcu : cp.udpLayer = some cudp) (hci : cp.ipLayer = some cip)
    (hsu : sp.udpLayer = some sudp) (hsi : sp.ipLayer = some sip)
    (hD : sip.SrcIP = cip.DstIP ∧ sudp.SrcPort = cudp.DstPort)
    (hmid : ∀ pk udp ip, Step.clientFrame pk ∈ mid → pk.udpLayer = some udp →
      pk.ipLayer = some ip → ¬ (ip.DstIP = cip.DstIP ∧ udp.DstPort = cudp.DstPort)) :
    (run env (captureAndForwardFrame st cp) mid).connMap (sprintfAddr sip.SrcIP sudp.SrcPort)
        = some ⟨cip.SrcIP, cudp.SrcPort.val⟩ ∧
    (captureResponsesFrame env (run env (captureAndForwardFrame st cp) mid) sp).trace
        = (run env (captureAndForwardFrame st cp) mid).trace ++
          sendTrace env (Dest.addr ⟨cip.SrcIP, cudp.SrcPort.val⟩) sudp.Payload
            (run env (captureAndForwardFrame st cp) mid).dials := by
  have hkey : (run env (captureAndForwardFrame st cp) mid).connMap
      (sprintfAddr sip.SrcIP sudp.SrcPort) = some ⟨cip.SrcIP, cudp.SrcPort.val⟩ := by
    rw [run_connMap_untouched env _ mid _ ?_]
    · rw [captureAndForwardFrame_accept st hcu hci, hD.1, hD.2]
      simp [ConnMap.set]
    · intro pk udp ip hm hu hi hk
      rw [hD.1, hD.2] at hk
      exact hmid pk udp ip hm hu hi (sprintfAddr_inj hk)
  refine ⟨hkey, ?_⟩
  rw [captureResponsesFrame_hit env _ hsu hsi hkey]

/-- Witness of C1: Scenario A, then the goroutine of A and a
server-side frame from 8.8.8.8:53, then Scenario B. -/
theorem roundtrip_routing_witness :
    (run envOk (captureAndForwardFrame State.init frameA)
        [Step.runGoroutine 0, Step.serverFrame frameC]).connMap (sprintfAddr ipServer 9000)
        = some ⟨ipClient, 40000⟩ ∧
    (captureResponsesFrame envOk (run envOk (captureAndForwardFrame State.init frameA)
        [Step.runGoroutine 0, Step.serverFrame frameC]) frameB).trace
        = (run envOk (captureAndForwardFrame State.init frameA)
            [Step.runGoroutine 0, Step.serverFrame frameC]).trace ++
          sendTrace envOk (Dest.addr ⟨ipClient, 40000⟩) [0x99]
            (run envOk (captureAndForwardFrame State.init frameA)
              [Step.runGoroutine 0, Step.serverFrame frameC]).dials :=
  roundtrip_routing envOk State.init [Step.runGoroutine 0, Step.serverFrame frameC]
    frameA frameB ⟨40000, 9000, [1, 2]⟩ ⟨9000, 40000, [0x99]⟩ ⟨ipClient, ipServer⟩
    ⟨ipServer, ipClient⟩ (by decide) (by decide) (by decide) (by decide) ⟨rfl, rfl⟩
    (by intro pk udp ip hm; simp at hm)

/-- C2. Last write wins. In any schedule of the two listeners and the goroutines,
from any state, if the last client-side IPv4+UDP frame to D has source S2, the
entry under D's key at the end is found and is S2 in full, IP and port both
from S2; it is no other endpoint S1 ≠ S2, whatever earlier frames to D carried. -/
theorem last_write_wins (env : Env) (st : State) (pre post : List Step)
    (p2 : Packet) (udp2 : UDP) (ip2 : IPv4)
    (hu2 : p2.udpLayer = some udp2) (hi2 : p2.ipLayer = some ip2)
    (hpost : ∀ pk udp ip, Step.clientFrame pk ∈ post → pk.udpLayer = some udp →
      pk.ipLayer = some ip → ¬ (ip.DstIP = ip2.DstIP ∧ udp.DstPort = udp2.DstPort)) :
    (run env st (pre ++ Step.clientFrame p2 :: post)).connMap
        (sprintfAddr ip2.DstIP udp2.DstPort) = some ⟨ip2.SrcIP, udp2.SrcPort.val⟩ ∧
    (∀ (s1 : NetIP) (port1 : UDPPort), ¬ (s1 = ip2.SrcIP ∧ port1 = udp2.SrcPort) →
      (run env st (pre ++ Step.clientFrame p2 :: post)).connMap
        (sprintfAddr ip2.DstIP udp2.DstPort) ≠ some ⟨s1, port1.val⟩) ∧
    (∀ a, (run env st (pre ++ Step.clientFrame p2 :: post)).connMap
        (sprintfAddr ip2.DstIP udp2.DstPort) = some a →
        a.IP = ip2.SrcIP ∧ a.Port = udp2.SrcPort.val) := by
  have hkey : (run env st (pre ++ Step.clientFrame p2 :: post)).connMap
      (sprintfAddr ip2.DstIP udp2.DstPort) = some ⟨ip2.SrcIP, udp2.SrcPort.val⟩ := by
    rw [run_append]
    show (run env (step env (run env st pre) (Step.clientFrame p2)) post).connMap _ = _
    rw [run_connMap_untouched env _ post _ ?_]
    · simp only [step]
      rw [captureAndForwardFrame_accept _ hu2 hi2]
      simp [ConnMap.set]
    · intro pk udp ip hm hu hi hk
      exact hpost pk udp ip hm hu hi (sprintfAddr_inj hk)
  refine ⟨hkey, ?_, ?_⟩
  · intro s1 port1 hS
    rw [hkey]
    intro h
    simp only [Option.some.injEq, UDPAddr.mk.injEq] at h
    exact hS ⟨h.1.symm, (Fin.ext h.2).symm⟩
  · intro a ha
    rw [hkey] at ha
    simp only [Option.some.injEq] at ha
    subst ha
    exact ⟨rfl, rfl⟩

/-- Witness of C2: Scenario A from 10.0.0.5:40000, then a frame from
10.0.0.5:40001 to the same destination, then Scenario B. -/
theorem last_write_wins_witness :
    (run envOk State.init ([Step.clientFrame frameA] ++ Step.clientFrame frameA2 ::
        [Step.serverFrame frameB])).connMap (sprintfAddr ipServer 9000)
        = some ⟨ipClient, 40001⟩ ∧
    (run envOk State.init ([Step.clientFrame frameA] ++ Step.clientFrame frameA2 ::
        [Step.serverFrame frameB])).connMap (sprintfAddr ipServer 9000)
        ≠ some ⟨ipClient, 40000⟩ :=
  have h := last_write_wins envOk State.init [Step.clientFrame frameA] [Step.serverFrame frameB]
    frameA2 ⟨40001, 9000, [3]⟩ ⟨ipClient, ipServer⟩ (by decide) (by decide)
    (by intro pk udp ip hm; simp at hm)
  ⟨h.1, h.2.1 ipClient 40000 (by decide)⟩

/-- C3. No mapping, no forward. After any schedule from the start-up state in
which no client-side IPv4+UDP frame has destination X, `captureResponses` on a
server-side IPv4+UDP frame with source X leaves the whole state as it is - no
dial, no write, no warning, no goroutine, the same table - and the loop goes on
with the frames that follow. -/
theorem no_mapping_no_forward (env : Env) (steps : List Step) (sp : Packet) (sudp : UDP)
    (sip : IPv4) (rest : List Packet)
    (hsu : sp.udpLayer = some sudp) (hsi : sp.ipLayer = some sip)
    (hnone : ∀ pk udp ip, Step.clientFrame pk ∈ steps → pk.udpLayer = some udp →
      pk.ipLayer = some ip → ¬ (ip.DstIP = sip.SrcIP ∧ udp.DstPort = sudp.SrcPort)) :
    captureResponsesFrame env (run env State.init steps) sp = run env State.init steps ∧
    captureResponses env (run env State.init steps) (sp :: rest)
      = captureResponses env (run env State.init steps) rest := by
  have hmiss : (run env State.init steps).connMap (sprintfAddr sip.SrcIP sudp.SrcPort) = none := by
    rw [run_connMap_untouched env _ steps _ ?_]
    · rfl
    · intro pk udp ip hm hu hi hk
      exact hnone pk udp ip hm hu hi (sprintfAddr_inj hk)
  have hst := captureResponsesFrame_miss env _ hsu hsi hmiss
  refine ⟨hst, ?_⟩
  show captureResponses env (captureResponsesFrame env _ sp) rest = _
  rw [hst]

/-- Witness of C3: Scenario C after Scenario A and B. -/
theorem no_mapping_no_forward_witness :
    captureResponsesFrame envOk (run envOk State.init
        [Step.clientFrame frameA, Step.serverFrame frameB]) frameC
      = run envOk State.init [Step.clientFrame frameA, Step.serverFrame frameB] ∧
    captureResponses envOk (run envOk State.init
        [Step.clientFrame frameA, Step.serverFrame frameB]) (frameC :: [frameB])
      = captureResponses envOk (run envOk State.init
        [Step.clientFrame frameA, Step.serverFrame frameB]) [frameB] :=
  no_mapping_no_forward envOk [Step.clientFrame frameA, Step.serverFrame frameB] frameC
    ⟨53, 40000, [7]⟩ ⟨ipDns, ipClient⟩ [frameB] (by decide) (by decide)
    (by
      intro pk udp ip hm hu hi
      simp only [List.mem_cons, Step.clientFrame.injEq, List.mem_singleton, reduceCtorEq,
        or_false, List.not_mem_nil] at hm
      subst hm
      have : ip = ⟨ipClient, ipServer⟩ := by
        have h : frameA.ipLayer = some ⟨ipClient, ipServer⟩ := by decide
        rw [h] at hi
        exact (Option.some.inj hi).symm
      subst this
      intro h
      exact absurd h.1 (by decide))

/-- C4. Filter correctness. A frame with no UDP layer or no IPv4 layer leaves the
whole state as it is in both listeners - the same table, no goroutine, no I/O -
and each loop goes on with the frames that follow. -/
theorem filter_correctness (env : Env) (st : State) (packet : Packet) (rest : List Packet)
    (h : packet.udpLayer = none ∨ packet.ipLayer = none) :
    captureAndForwardFrame st packet = st ∧
    captureResponsesFrame env st packet = st ∧
    captureAndForward st (packet :: rest) = captureAndForward st rest ∧
    captureResponses env st (packet :: rest) = captureResponses env st rest := by
  have hc := captureAndForwardFrame_skip st h
  have hs := captureResponsesFrame_skip env st h
  refine ⟨hc, hs, ?_, ?_⟩
  · show captureAndForward (captureAndForwardFrame st packet) rest = _
    rw [hc]
  · show captureResponses env (captureResponsesFrame env st packet) rest = _
    rw [hs]

/-- Witness of C4: the IPv4+TCP frame of Scenario D, on the state
after Scenario A, followed by Scenario B. -/
theorem filter_correctness_witness :
    (frameD.udpLayer = none ∨ frameD.ipLayer = none) ∧
    captureAndForwardFrame (captureAndForwardFrame State.init frameA) frameD
      = captureAndForwardFrame State.init frameA ∧
    captureResponsesFrame envOk (captureAndForwardFrame State.init frameA) frameD
      = captureAndForwardFrame State.init frameA ∧
    captureAndForward (captureAndForwardFrame State.init frameA) (frameD :: [frameB])
      = captureAndForward (captureAndForwardFrame State.init frameA) [frameB] ∧
    captureResponses envOk (captureAndForwardFrame State.init frameA) (frameD :: [frameB])
      = captureResponses envOk (captureAndForwardFrame State.init frameA) [frameB] :=
  ⟨by decide, filter_correctness envOk (captureAndForwardFrame State.init frameA) frameD [frameB]
    (by decide)⟩

/-- C5. Client-side upsert. For every state and every client-side IPv4+UDP frame
with source S and destination D, after `captureAndForward` has processed the
frame the table maps D's key to S, whatever it held before, and every other
key has the entry it had. -/
theorem client_upsert (st : State) (packet : Packet) (udp : UDP) (ip : IPv4)
    (hu : packet.udpLayer = some udp) (hi : packet.ipLayer = some ip) :
    (captureAndForwardFrame st packet).connMap (sprintfAddr ip.DstIP udp.DstPort)
      = some ⟨ip.SrcIP, udp.SrcPort.val⟩ ∧
    ∀ k, k ≠ sprintfAddr ip.DstIP udp.DstPort →
      (captureAndForwardFrame st packet).connMap k = st.connMap k := by
  rw [captureAndForwardFrame_accept st hu hi]
  refine ⟨by simp [ConnMap.set], ?_⟩
  intro k hk
  simp [ConnMap.set, hk]

/-- Witness of C5: Scenario A on the start-up state; the key of 8.8.8.8:53 keeps
its entry. -/
theorem client_upsert_witness :
    (captureAndForwardFrame State.init frameA).connMap (sprintfAddr ipServer 9000)
      = some ⟨ipClient, 40000⟩ ∧
    (captureAndForwardFrame State.init frameA).connMap "8.8.8.8:53"
      = State.init.connMap "8.8.8.8:53" :=
  have h := client_upsert State.init frameA ⟨40000, 9000, [1, 2]⟩ ⟨ipClient, ipServer⟩
    (by decide) (by decide)
  ⟨h.1, h.2 "8.8.8.8:53" (by decide)⟩

/-- C7. The server-side listener only reads the table, and nothing is removed.
For every state and every frame `captureResponses` leaves the table as it is;
and along every schedule of the two listeners and the goroutines a key that is
in the table stays in it. -/
theorem server_read_only (env : Env) (st : State) (packet : Packet) (steps : List Step)
    (k : String) :
    (captureResponsesFrame env st packet).connMap = st.connMap ∧
    ((st.connMap k).isSome = true → ((run env st steps).connMap k).isSome = true) :=
  ⟨captureResponsesFrame_connMap env st packet, run_connMap_isSome env k steps st⟩

/-- Witness of C7: the key of Scenario A survives Scenario B, the
goroutine, and frames to and from other endpoints. -/
theorem server_read_only_witness :
    ((captureAndForwardFrame State.init frameA).connMap "93.184.1.1:9000").isSome = true ∧
    ((run envWriteFails (captureAndForwardFrame State.init frameA)
      [Step.serverFrame frameB, Step.runGoroutine 0, Step.clientFrame frameB,
        Step.serverFrame frameC]).connMap "93.184.1.1:9000").isSome = true :=
  ⟨by decide, (server_read_only envWriteFails (captureAndForwardFrame State.init frameA) frameB
    [Step.serverFrame frameB, Step.runGoroutine 0, Step.clientFrame frameB,
      Step.serverFrame frameC] "93.184.1.1:9000").2 (by decide)⟩

/-- C10. The table key is injective and shared. The key `"%s:%d"` of an IPv4
address and a 16-bit port determines both; `captureAndForward` writes under the
key of the frame's destination and `captureResponses` reads under the same
function of the frame's source, so after a client-side frame to D a server-side
frame from X reads that frame's entry exactly when X = D, and from the start-up
state a lookup hits only if a client-side frame went to exactly that endpoint. -/
theorem key_injective_shared :
    (∀ (a b : NetIP) (p q : UDPPort), sprintfAddr a p = sprintfAddr b q → a = b ∧ p = q) ∧
    (∀ (st : State) (cp : Packet) (udp : UDP) (ip : IPv4) (x : NetIP) (xp : UDPPort),
      cp.udpLayer = some udp → cp.ipLayer = some ip →
      (captureAndForwardFrame st cp).connMap (sprintfAddr x xp) =
        if x = ip.DstIP ∧ xp = udp.DstPort then some ⟨ip.SrcIP, udp.SrcPort.val⟩
        else st.connMap (sprintfAddr x xp)) ∧
    (∀ (env : Env) (st : State) (sp : Packet) (udp : UDP) (ip : IPv4),
      sp.udpLayer = some udp → sp.ipLayer = some ip →
      ((captureResponsesFrame env st sp).trace = st.trace ↔
        st.connMap (sprintfAddr ip.SrcIP udp.SrcPort) = none)) ∧
    (∀ (env : Env) (steps : List Step) (x : NetIP) (xp : UDPPort),
      (run env State.init steps).connMap (sprintfAddr x xp) ≠ none →
      ∃ pk udp ip, Step.clientFrame pk ∈ steps ∧ pk.udpLayer = some udp ∧
        pk.ipLayer = some ip ∧ ip.DstIP = x ∧ udp.DstPort = xp) := by
  refine ⟨fun a b p q h => sprintfAddr_inj h, ?_, ?_, ?_⟩
  · intro st cp udp ip x xp hu hi
    rw [captureAndForwardFrame_accept st hu hi]
    simp only [ConnMap.set]
    by_cases hx : x = ip.DstIP ∧ xp = udp.DstPort
    · rw [if_pos hx, if_pos (by rw [hx.1, hx.2])]
    · rw [if_neg hx, if_neg (fun e => hx (sprintfAddr_inj e))]
  · intro env st sp udp ip hu hi
    cases hm : st.connMap (sprintfAddr ip.SrcIP udp.SrcPort) with
    | none => rw [captureResponsesFrame_miss env st hu hi hm]; simp
    | some a =>
      rw [captureResponsesFrame_hit env st hu hi hm]
      simp only [reduceCtorEq, iff_false]
      intro h
      exact sendTrace_ne_nil env _ _ _ (List.append_right_eq_self.mp h)
  · intro env steps x xp h
    obtain ⟨pk, udp, ip, hm, hu, hi, hk⟩ := run_connMap_written env _ steps State.init h
    have := sprintfAddr_inj hk
    exact ⟨pk, udp, ip, hm, hu, hi, this.1, this.2⟩

/-- Witness of C10: the key written by Scenario A is the key read by Scenario B,
and the entry under it comes from a client-side frame to 93.184.1.1:9000. -/
theorem key_injective_shared_witness :
    sprintfAddr frameAIp.DstIP frameAUdp.DstPort = sprintfAddr frameBIp.SrcIP frameBUdp.SrcPort ∧
    (frameAIp.DstIP = frameBIp.SrcIP ∧ frameAUdp.DstPort = frameBUdp.SrcPort) ∧
    (∃ pk udp ip, Step.clientFrame pk ∈ [Step.clientFrame frameA] ∧ pk.udpLayer = some udp ∧
      pk.ipLayer = some ip ∧ ip.DstIP = ipServer ∧ udp.DstPort = 9000) :=
  ⟨by decide,
    key_injective_shared.1 frameAIp.DstIP frameBIp.SrcIP frameAUdp.DstPort frameBUdp.SrcPort
      (by decide),
    key_injective_shared.2.2.2 envOk [Step.clientFrame frameA] ipServer 9000 (by decide)⟩

/-- C6. One unmodified send per accepted frame, no retry. For an IPv4+UDP frame
`captureAndForward` spawns exactly one goroutine, on the frame's destination key
and UDP payload, and dials nothing itself; that goroutine makes one dial to that
destination and at most one write, of exactly the payload. `captureResponses`
makes no send on a miss and, on a hit, one dial to the entry and at most one
write, of exactly the payload. A send holds exactly one dial and, only when the
dial succeeds, one write: a failed dial or write is followed by no further one. -/
theorem one_send_per_frame (env : Env) (st : State) (packet : Packet) (udp : UDP) (ip : IPv4)
    (hu : packet.udpLayer = some udp) (hi : packet.ipLayer = some ip) :
    (captureAndForwardFrame st packet).goroutines
      = st.goroutines ++ [⟨sprintfAddr ip.DstIP udp.DstPort, udp.Payload⟩] ∧
    (captureAndForwardFrame st packet).trace = st.trace ++ [Event.debugPrint] ∧
    (∀ s : State,
      (forwardGoroutine env ⟨sprintfAddr ip.DstIP udp.DstPort, udp.Payload⟩ s).trace
        = s.trace ++ sendTrace env (Dest.hostport (sprintfAddr ip.DstIP udp.DstPort))
            udp.Payload s.dials) ∧
    (st.connMap (sprintfAddr ip.SrcIP udp.SrcPort) = none →
      (captureResponsesFrame env st packet).trace = st.trace ∧
      (captureResponsesFrame env st packet).goroutines = st.goroutines) ∧
    (∀ a, st.connMap (sprintfAddr ip.SrcIP udp.SrcPort) = some a →
      (captureResponsesFrame env st packet).trace
        = st.trace ++ sendTrace env (Dest.addr a) udp.Payload st.dials ∧
      (captureResponsesFrame env st packet).goroutines = st.goroutines) ∧
    (∀ (dest : Dest) (data : List Byte) (n : Nat),
      (sendTrace env dest data n).filter Event.isDial
        = [Event.dial dest (if env.dialOk n = true then some n else none)] ∧
      (sendTrace env dest data n).filter Event.isWrite
        = if env.dialOk n = true then [Event.write n data (env.writeOk n)] else []) := by
  refine ⟨?_, ?_, ?_, ?_, ?_, ?_⟩
  · rw [captureAndForwardFrame_accept st hu hi]
  · rw [captureAndForwardFrame_accept st hu hi]
  · intro s; rw [forwardGoroutine_eq]
  · intro hm; rw [captureResponsesFrame_miss env st hu hi hm]; exact ⟨rfl, rfl⟩
  · intro a hm; rw [captureResponsesFrame_hit env st hu hi hm]; exact ⟨rfl, rfl⟩
  · intro dest data n
    unfold sendTrace
    cases hd : env.dialOk n <;> cases hw : env.writeOk n <;>
      simp [List.filter, Event.isDial, Event.isWrite]

/-- Witness of C6: Scenario A, whose frame is also read on the
server side where its source 10.0.0.5:40000 has no entry. -/
theorem one_send_per_frame_witness :
    (captureAndForwardFrame State.init frameA).goroutines
      = State.init.goroutines ++ [⟨sprintfAddr ipServer 9000, [1, 2]⟩] ∧
    (captureAndForwardFrame State.init frameA).trace
      = State.init.trace ++ [Event.debugPrint] ∧
    (forwardGoroutine envDialFails ⟨sprintfAddr ipServer 9000, [1, 2]⟩ State.init).trace
      = State.init.trace ++
        sendTrace envDialFails (Dest.hostport (sprintfAddr ipServer 9000)) [1, 2] 0 ∧
    (sendTrace envDialFails (Dest.hostport (sprintfAddr ipServer 9000)) [1, 2] 0).filter
      Event.isDial = [Event.dial (Dest.hostport (sprintfAddr ipServer 9000)) none] :=
  have h := one_send_per_frame envDialFails State.init frameA ⟨40000, 9000, [1, 2]⟩
    ⟨ipClient, ipServer⟩ (by decide) (by decide)
  ⟨h.1, h.2.1, h.2.2.1 State.init,
    (h.2.2.2.2.2 (Dest.hostport (sprintfAddr ipServer 9000)) [1, 2] 0).1⟩

/-- C9. Socket release on all paths. The goroutine of `captureAndForward` and a
hit of `captureResponses` each perform one send. In a send whose dial succeeds
the events on the new socket are the dial, one write of the payload and one
close, in this order, whether the write succeeds or fails; when the dial fails
there is no event on any socket; a send touches no other socket. Along every
schedule from the start-up state each socket has been opened, written on once
and closed once, or not used at all. -/
theorem socket_release (env : Env) (st : State) (t : Task) (packet : Packet) (udp : UDP)
    (ip : IPv4) (a : UDPAddr) (steps : List Step)
    (hu : packet.udpLayer = some udp) (hi : packet.ipLayer = some ip)
    (hm : st.connMap (sprintfAddr ip.SrcIP udp.SrcPort) = some a) :
    (forwardGoroutine env t st).trace
      = st.trace ++ sendTrace env (Dest.hostport t.dest) t.data st.dials ∧
    (captureResponsesFrame env st packet).trace
      = st.trace ++ sendTrace env (Dest.addr a) udp.Payload st.dials ∧
    (∀ (dest : Dest) (data : List Byte) (m : Nat), env.dialOk m = true →
      eventsOn m (sendTrace env dest data m)
        = [Event.dial dest (some m), Event.write m data (env.writeOk m), Event.close m]) ∧
    (∀ (dest : Dest) (data : List Byte) (m : Nat), env.dialOk m = false →
      sendTrace env dest data m = [Event.dial dest none, Event.warn dest]) ∧
    (∀ (dest : Dest) (data : List Byte) (m n : Nat), n ≠ m →
      eventsOn n (sendTrace env dest data m) = []) ∧
    (∀ n, eventsOn n (run env State.init steps).trace = [] ∨ ∃ dest data ok,
      eventsOn n (run env State.init steps).trace
        = [Event.dial dest (some n), Event.write n data ok, Event.close n]) := by
  refine ⟨?_, ?_, ?_, ?_, ?_, ?_⟩
  · rw [forwardGoroutine_eq]
  · rw [captureResponsesFrame_hit env st hu hi hm]
  · intro dest data m hd
    rw [eventsOn_sendTrace, if_pos ⟨rfl, hd⟩]
  · intro dest data m hd
    simp [sendTrace, hd]
  · intro dest data m n hn
    rw [eventsOn_sendTrace, if_neg (fun h => hn h.1)]
  · intro n
    exact (socketsReleased_run env steps State.init socketsReleased_init n).1

/-- Witness of C9: Scenario B on the state after Scenario A, under an
oracle whose writes fail. -/
theorem socket_release_witness :
    (captureResponsesFrame envWriteFails (captureAndForwardFrame State.init frameA) frameB).trace
      = (captureAndForwardFrame State.init frameA).trace ++
        sendTrace envWriteFails (Dest.addr ⟨ipClient, 40000⟩) [0x99]
          (captureAndForwardFrame State.init frameA).dials ∧
    eventsOn 0 (sendTrace envWriteFails (Dest.addr ⟨ipClient, 40000⟩) [0x99] 0)
      = [Event.dial (Dest.addr ⟨ipClient, 40000⟩) (some 0), Event.write 0 [0x99] false,
          Event.close 0] :=
  have h := socket_release envWriteFails (captureAndForwardFrame State.init frameA)
    ⟨"93.184.1.1:9000", [1, 2]⟩ frameB ⟨9000, 40000, [0x99]⟩ ⟨ipServer, ipClient⟩
    ⟨ipClient, 40000⟩ [] (by decide) (by decide) (by decide)
  ⟨h.2.1, h.2.2.1 (Dest.addr ⟨ipClient, 40000⟩) [0x99] 0 rfl⟩

/-- C8. On Scenario B after Scenario A, `captureResponses` spawns no goroutine:
the dial, the write and the close are events of the loop body itself, which
returns to the frame source only after them; on Scenario A `captureAndForward`
spawns the goroutine and its own trace holds no dial. -/
theorem captureResponses_sends_inline :
    (captureResponsesFrame envOk (captureAndForwardFrame State.init frameA) frameB).goroutines
      = (captureAndForwardFrame State.init frameA).goroutines ∧
    (captureResponsesFrame envOk (captureAndForwardFrame State.init frameA) frameB).trace
      = (captureAndForwardFrame State.init frameA).trace ++
        [Event.dial (Dest.addr ⟨ipClient, 40000⟩) (some 0), Event.write 0 [0x99] true,
          Event.close 0] ∧
    (captureAndForwardFrame State.init frameA).goroutines = [⟨"93.184.1.1:9000", [1, 2]⟩] ∧
    (captureAndForwardFrame State.init frameA).trace = [Event.debugPrint] := by
  decide

end UdpProxy
